import Mathlib

/-!
Shallow embedding of the chess-against-engine application: the engine
session hook (src/hooks/useStockfish.ts, with its two sibling variants in
the repository) and the game orchestrator component
(src/components/ChessGame.tsx).

Session model.  The hook's mutable refs (pendingCallbackRef,
errorCallbackRef, timeoutRef) and the isReady flag become an explicit
record.  Callbacks are identified by the ordinal of the requestMove call
that registered them, so an invocation record (best k m / fail k) says
"the onMove / onError callback of call k fired".  setTimeout handles are
numbered; `armed` lists the handles of timers that the runtime has armed
and that have neither fired nor been cleared (clearTimeout on an already
fired handle is a no-op, as in the browser).  The worker is an
adversarial message source: bestmove / error messages may arrive at any
time; the ghost `origin` field on them records which call the
computation unit meant to answer, and the handlers never read it, because
the real messages carry no correlation id.

Orchestrator model.  The React component state (lines 36-55 of
ChessGame.tsx) becomes a record parameterized by the position type of
the external rules engine, which the spec treats as an authoritative
black box; a `Rules` record abstracts the chess.js calls the component
makes (move / isCheckmate / isDraw / isCheck / isGameOver / turn).  The
source keeps both the Chess instance (`game`) and its FEN string
(`gamePosition`), always written together from the same object; the model
stores the position value in both fields.  Audio and trash-talk side
effects are advisory presentation effects; engine-affecting effects
(issuing a bot-move request, tearing the session down) are reified in the
`Effect` type so theorems can state which of them an operation emits.
-/

/-- A terminal callback invocation observed at the requestMove interface:
`best k m` means the onMove callback registered by call number `k` fired
with move `m`; `fail k` means the onError callback of call `k` fired.
Calls to requestMove are numbered from 0. -/
inductive Callback where
  | best (call : Nat) (move : String)
  | fail (call : Nat)
deriving DecidableEq

/-- Messages the web worker posts to workerRef.onmessage.  `origin` is a
ghost annotation naming the requestMove call the computation unit meant
to answer; the handler never inspects it (the source messages have no
correlation id). -/
inductive WorkerMsg where
  | ready
  | bestmove (origin : Nat) (move : String)
  | analysis (depth : Nat)
  | error (origin : Nat)
deriving DecidableEq

/-- State of one useStockfish hook instance: the isReady flag, the three
refs, the set of session timers armed in the runtime, the analysis-depth
display state, and counters handing out call numbers and timer handles. -/
structure EngineSession where
  ready : Bool
  pending : Option Nat
  errCb : Option Nat
  timeoutRef : Option Nat
  armed : List Nat
  analysisDepth : Nat
  nextCall : Nat
  nextTimer : Nat
deriving DecidableEq

/-- Hook state right after the component mounts: worker not yet ready,
no callbacks registered, no timer armed. -/
def initialSession : EngineSession :=
  { ready := false, pending := none, errCb := none, timeoutRef := none,
    armed := [], analysisDepth := 0, nextCall := 0, nextTimer := 0 }

/-- requestMove (useStockfish.ts lines 194-217).  If the worker is absent
or not ready, the optional onError is invoked directly and nothing is
recorded.  Otherwise the two callback refs are overwritten with the new
call's callbacks, a fresh 500 ms deadline timer is armed and its handle
stored in timeoutRef (the previous handle, if any, is overwritten without
clearTimeout), and the position command is posted to the worker (the
worker's reaction is modeled by workerOnPosition below; the fen plays no
role in the callback bookkeeping). -/
def requestMove (s : EngineSession) (hasErr : Bool) :
    EngineSession × List Callback :=
  if s.ready then
    ({ s with
        pending := some s.nextCall,
        errCb := if hasErr then some s.nextCall else none,
        timeoutRef := some s.nextTimer,
        armed := s.nextTimer :: s.armed,
        nextCall := s.nextCall + 1,
        nextTimer := s.nextTimer + 1 }, [])
  else
    ({ s with nextCall := s.nextCall + 1 },
     if hasErr then [Callback.fail s.nextCall] else [])

/-- Body of the deadline-timer closure (useStockfish.ts lines 204-211):
fire the error callback if one is registered and clear it, and clear the
pending move callback.  The closure reads the refs at fire time; it does
not null timeoutRef. -/
def sessionTimeoutHandler (s : EngineSession) : EngineSession × List Callback :=
  match s.errCb with
  | some k => ({ s with errCb := none, pending := none }, [Callback.fail k])
  | none => ({ s with pending := none }, [])

/-- clearTimeout(timeoutRef.current); timeoutRef.current = null.  Erases
the stored handle from the armed timers (a no-op when that timer already
fired). -/
def clearSessionTimeout (s : EngineSession) : EngineSession :=
  match s.timeoutRef with
  | some h => { s with armed := s.armed.erase h, timeoutRef := none }
  | none => s

/-- workerRef.onmessage (useStockfish.ts lines 134-165).  On bestmove the
stored timer is cleared and the pending move callback fired and cleared;
the error callback ref is left as it is.  On error the stored timer is
cleared and the error callback fired and cleared; the pending move
callback ref is left as it is. -/
def onWorkerMessage (s : EngineSession) : WorkerMsg → EngineSession × List Callback
  | WorkerMsg.ready => ({ s with ready := true }, [])
  | WorkerMsg.bestmove _ m =>
      let s1 := clearSessionTimeout s
      match s1.pending with
      | some k => ({ s1 with pending := none }, [Callback.best k m])
      | none => (s1, [])
  | WorkerMsg.analysis d => ({ s with analysisDepth := d }, [])
  | WorkerMsg.error _ =>
      let s1 := clearSessionTimeout s
      match s1.errCb with
      | some k => ({ s1 with errCb := none }, [Callback.fail k])
      | none => (s1, [])

/-- workerRef.onerror (useStockfish.ts lines 167-173): fires and clears
the error callback; does not touch the timer or the pending callback. -/
def onWorkerError (s : EngineSession) : EngineSession × List Callback :=
  match s.errCb with
  | some k => ({ s with errCb := none }, [Callback.fail k])
  | none => (s, [])

/-- terminate (useStockfish.ts lines 219-225): kills the worker and drops
the ready flag; callback refs and timers are left untouched. -/
def terminateSession (s : EngineSession) : EngineSession :=
  { s with ready := false }

/-- An event at the session boundary: a requestMove call (hasErr records
whether the caller supplied the optional onError), a session deadline
timer firing, a worker message, a worker error event, or terminate. -/
inductive SEvent where
  | request (hasErr : Bool)
  | timerFire (h : Nat)
  | workerMsg (msg : WorkerMsg)
  | workerFailure
  | terminate
deriving DecidableEq

/-- One step of the session: dispatch an event to the handler the source
installs for it.  A timer can fire only while it is armed; firing removes
it from the runtime (one-shot timers). -/
def sessionStep (s : EngineSession) : SEvent → EngineSession × List Callback
  | SEvent.request hasErr => requestMove s hasErr
  | SEvent.timerFire h =>
      if h ∈ s.armed then sessionTimeoutHandler { s with armed := s.armed.erase h }
      else (s, [])
  | SEvent.workerMsg m => onWorkerMessage s m
  | SEvent.workerFailure => onWorkerError s
  | SEvent.terminate => (terminateSession s, [])

/-- Run a list of session events, collecting every callback invocation in
order. -/
def sessionRun (s : EngineSession) : List SEvent → EngineSession × List Callback
  | [] => (s, [])
  | e :: es =>
      let r := sessionStep s e
      let r2 := sessionRun r.1 es
      (r2.1, r.2 ++ r2.2)

/-- Session state after the startup handshake completed (the worker
posted ready). -/
def readySession : EngineSession :=
  (sessionStep initialSession (SEvent.workerMsg WorkerMsg.ready)).1

/-- UCI-level directives the worker forwards to the engine instance. -/
inductive EngineDirective where
  | stop
  | positionFen (fen : String)
  | goMovetime (ms : Nat)
  | goDepth (d : Nat)
deriving DecidableEq

/-- What the worker does on one inbound command: the engine directives it
posts, the backup timer it arms (which unconditionally posts an error
message when it fires, whether or not a bestmove was already delivered),
and whether the fallback engine will schedule a delayed bestmove reply
instead. -/
structure WorkerReaction where
  directives : List EngineDirective
  backupTimerMs : Option Nat
  fallbackReplies : Bool
deriving DecidableEq

/-- The worker's position-command handler in the active hook
(useStockfish.ts lines 100-126): with the engine loaded it first sends
stop, then the position, then go movetime 150, and arms a 300 ms backup
timer; without the engine it schedules a fallback reply after a random
100-200 ms delay. -/
def workerOnPosition (engineLoaded : Bool) (fen : String) : WorkerReaction :=
  if engineLoaded then
    { directives := [EngineDirective.stop, EngineDirective.positionFen fen,
                     EngineDirective.goMovetime 150],
      backupTimerMs := some 300, fallbackReplies := false }
  else
    { directives := [], backupTimerMs := none, fallbackReplies := true }

/-- The three near-duplicate hook implementations in the repository:
the active src/hooks/useStockfish.ts, the depth-20 variant
(unnamed part_002) and the fast-movetime variant (unnamed part_004). -/
inductive HookVariant where
  | active
  | depthSearch
  | fastMove
deriving DecidableEq

/-- The deadline armed by requestMove in each variant: 500 ms in the
active hook (line 211), 5000 ms in the depth-search variant, 200 ms in
the fast variant. -/
def sessionRequestTimeoutMs : HookVariant → Nat
  | HookVariant.active => 500
  | HookVariant.depthSearch => 5000
  | HookVariant.fastMove => 200

/-- The worker's internal backup timeout in each variant, its worst-case
response time: 300 ms in the active hook (line 113), 10000 ms in the
depth-search variant, 300 ms in the fast variant. -/
def workerBackupTimeoutMs : HookVariant → Nat
  | HookVariant.active => 300
  | HookVariant.depthSearch => 10000
  | HookVariant.fastMove => 300

/-- Side of a chess position. -/
inductive Color where
  | white
  | black
deriving DecidableEq

/-- The gender selection of the registration form; unset before the
player picks one (the empty string in the source). -/
inductive Gender where
  | male
  | female
  | unset
deriving DecidableEq

/-- The move object handed to the rules engine: source and target squares
and an optional promotion piece, exactly the shape ChessGame.tsx passes
to chess.js move(). -/
structure MoveInput where
  fromSq : String
  toSq : String
  promotion : Option String
deriving DecidableEq

/-- What the rules engine reports about an applied move: its standard
notation and the squares involved (the move.san / move.from / move.to
fields the component reads). -/
structure MoveResult where
  san : String
  fromSq : String
  toSq : String
deriving DecidableEq

/-- The external rules engine consumed as a black box (chess.js in the
source).  `tryMove p m` returns the successor position and the move
record when `m` is legal in `p`, and none when the engine rejects it
(chess.js throws or returns null; both source call sites treat the two
alike). -/
structure Rules (Pos : Type) where
  initial : Pos
  tryMove : Pos → MoveInput → Option (Pos × MoveResult)
  isCheckmate : Pos → Bool
  isDraw : Pos → Bool
  isCheck : Pos → Bool
  isGameOver : Pos → Bool
  turn : Pos → Color

/-- The component state of ChessGame.tsx (lines 36-55), parameterized by
the rules engine's position type.  The source keeps the Chess instance
in `game` and its FEN string in `gamePosition`, always assigned together
from the same object; the model stores the position value in both. -/
structure GameState (Pos : Type) where
  playerName : String
  playerGender : Gender
  playerColor : Color
  gameStarted : Bool
  isFullscreen : Bool
  game : Pos
  gamePosition : Pos
  moveHistory : List String
  gameStatus : String
  isPlayerTurn : Bool
  botThinking : Bool
  lastMove : Option (String × String)
  botMessage : String
  showBotMessage : Bool
  selectedSquares : List String
  soundEnabled : Bool
  speechEnabled : Bool
  moveCount : Nat
deriving DecidableEq

/-- Side effects an orchestrator operation emits beyond its state update.
playSound and botPersonality are advisory presentation effects;
requestBot is the scheduled requestBotMove call for the given position;
terminateEngine stands for the hook's terminate operation (exposed by
useStockfish but never invoked by ChessGame). -/
inductive Effect (Pos : Type) where
  | playSound
  | botPersonality
  | requestBot (p : Pos)
  | terminateEngine
deriving DecidableEq

/-- The initial component state (useState initializer, lines 36-55). -/
def initialGameState {Pos : Type} (R : Rules Pos) : GameState Pos :=
  { playerName := "", playerGender := Gender.unset, playerColor := Color.white,
    gameStarted := false, isFullscreen := false,
    game := R.initial, gamePosition := R.initial,
    moveHistory := [], gameStatus := "Game in progress",
    isPlayerTurn := true, botThinking := false, lastMove := none,
    botMessage := "", showBotMessage := false, selectedSquares := [],
    soundEnabled := true, speechEnabled := true, moveCount := 0 }

/-- The game-status string both move paths compute after a move
(lines 218-226 and 278-285 duplicate this logic verbatim). -/
def statusAfter {Pos : Type} (R : Rules Pos) (p : Pos) : String :=
  if R.isCheckmate p then
    "Checkmate! " ++ (if R.turn p = Color.white then "Black" else "White") ++ " wins!"
  else if R.isDraw p then "Draw!"
  else if R.isCheck p then "Check!"
  else "Game in progress"

/-- startGame (lines 108-143): only acts when the trimmed name is
nonempty - equivalently, when some character of it is not whitespace -
and a gender is chosen; resets the game fields (but not the sound /
speech / fullscreen preferences), gives the turn to the player exactly
when they chose white, and, when the player chose black, schedules
requestBotMove on the fresh position. -/
def startGame {Pos : Type} (R : Rules Pos) (gs : GameState Pos) :
    GameState Pos × List (Effect Pos) :=
  if gs.playerName.toList.any (fun c => !c.isWhitespace) ∧ gs.playerGender ≠ Gender.unset then
    ({ gs with
        gameStarted := true,
        game := R.initial, gamePosition := R.initial,
        moveHistory := [], gameStatus := "Game in progress",
        isPlayerTurn := gs.playerColor == Color.white,
        botThinking := false, lastMove := none,
        botMessage := "", showBotMessage := false,
        selectedSquares := [], moveCount := 0 },
     if gs.playerColor == Color.black then [Effect.requestBot R.initial] else [])
  else (gs, [])

/-- resetGame (lines 145-166): restores the game fields and clears the
registration fields, but leaves isFullscreen, soundEnabled and
speechEnabled as they are (they are not in the update object). -/
def resetGame {Pos : Type} (R : Rules Pos) (gs : GameState Pos) : GameState Pos :=
  { gs with
      gameStarted := false,
      playerName := "", playerGender := Gender.unset, playerColor := Color.white,
      game := R.initial, gamePosition := R.initial,
      moveHistory := [], gameStatus := "Game in progress",
      isPlayerTurn := true, botThinking := false, lastMove := none,
      botMessage := "", showBotMessage := false,
      selectedSquares := [], moveCount := 0 }

/-- toggleFullscreen (lines 356-358). -/
def toggleFullscreen {Pos : Type} (gs : GameState Pos) : GameState Pos :=
  { gs with isFullscreen := !gs.isFullscreen }

/-- toggleSound (lines 360-362). -/
def toggleSound {Pos : Type} (gs : GameState Pos) : GameState Pos :=
  { gs with soundEnabled := !gs.soundEnabled }

/-- toggleSpeech (lines 364-372); the stopSpeaking call on disabling is
an audio effect outside the model. -/
def toggleSpeech {Pos : Type} (gs : GameState Pos) : GameState Pos :=
  { gs with speechEnabled := !gs.speechEnabled }

/-- The state update requestBotMove performs when issuing a request
(line 190). -/
def requestBotMoveIssue {Pos : Type} (gs : GameState Pos) : GameState Pos :=
  { gs with botThinking := true }

/-- The onError callback requestBotMove registers (lines 197-200): log
and drop the thinking flag; nothing else changes. -/
def onBotMoveError {Pos : Type} (gs : GameState Pos) : GameState Pos :=
  { gs with botThinking := false }

/-- How makeBotMove decodes the engine's long-algebraic move string
(lines 209-213): slice(0,2), slice(2,4) and the remainder as the
promotion piece when nonempty. -/
def parseBotMove (moveString : String) : MoveInput :=
  { fromSq := moveString.take 2,
    toSq := (moveString.drop 2).take 2,
    promotion := if (moveString.drop 4).isEmpty then none
                 else some (moveString.drop 4) }

/-- makeBotMove (lines 204-259).  A legal move updates the position,
appends the san to the history, recomputes the status, hands the turn to
the player and clears the thinking flag; it schedules a move sound when
sounds are on and a trash-talk message when the new move count hits the
randomized 2-or-3 modulus (`coin` fixes that Math.random choice).  A
move the rules engine rejects only logs and clears the thinking flag -
the catch block and the falsy-move branch both fall through to
`{ ...prev, botThinking: false }`. -/
def makeBotMove {Pos : Type} (R : Rules Pos) (coin : Bool) (moveString : String)
    (prev : GameState Pos) : GameState Pos × List (Effect Pos) :=
  match R.tryMove prev.gamePosition (parseBotMove moveString) with
  | some (newPos, mv) =>
      ({ prev with
          game := newPos, gamePosition := newPos,
          moveHistory := prev.moveHistory ++ [mv.san],
          gameStatus := statusAfter R newPos,
          isPlayerTurn := true, botThinking := false,
          lastMove := some (mv.fromSq, mv.toSq),
          selectedSquares := [],
          moveCount := prev.moveCount + 1 },
       (if prev.soundEnabled then [Effect.playSound] else [])
         ++ (if (prev.moveCount + 1) % (if coin then 2 else 3) == 0 then
              [Effect.botPersonality] else []))
  | none => ({ prev with botThinking := false }, [])

/-- The promotion argument onDrop passes to the rules engine
(line 272): the promotion is queen exactly when the dragged piece name
contains a q after lowercasing. -/
def promotionForPiece (piece : String) : Option String :=
  if piece.toList.any (fun c => c.toLower = 'q') then some "q" else none

/-- Result of a drop gesture: the new component state, the boolean the
handler returns to the board, and the effects it emits. -/
structure DropResult (Pos : Type) where
  state : GameState Pos
  accepted : Bool
  effects : List (Effect Pos)
deriving DecidableEq

/-- onDrop (lines 261-319).  Returns false without touching anything
when it is not the player's turn or the bot is thinking, and when the
rules engine rejects the move (null move or thrown error).  A legal move
updates the position, history, status and last-move highlight, gives the
turn to the bot, plays the move sound when sounds are on, and schedules
requestBotMove on the new position unless the game is over.  The game
phase (checkmate / draw already on the board) is never consulted. -/
def onDrop {Pos : Type} (R : Rules Pos) (sourceSquare targetSquare piece : String)
    (gs : GameState Pos) : DropResult Pos :=
  if !gs.isPlayerTurn || gs.botThinking then
    { state := gs, accepted := false, effects := [] }
  else
    match R.tryMove gs.gamePosition
        { fromSq := sourceSquare, toSq := targetSquare,
          promotion := promotionForPiece piece } with
    | some (newPos, mv) =>
        { state := { gs with
            game := newPos, gamePosition := newPos,
            moveHistory := gs.moveHistory ++ [mv.san],
            gameStatus := statusAfter R newPos,
            isPlayerTurn := false,
            lastMove := some (mv.fromSq, mv.toSq),
            selectedSquares := [],
            moveCount := gs.moveCount + 1 },
          accepted := true,
          effects :=
            (if gs.soundEnabled then [Effect.playSound] else [])
              ++ (if !R.isGameOver newPos then [Effect.requestBot newPos] else []) }
    | none => { state := gs, accepted := false, effects := [] }

/-- GamePhase of the spec, derived from the component state: Setup
before the game starts, Ended once the rules engine reports checkmate or
draw on the current position, InProgress otherwise. -/
inductive GamePhase where
  | setup
  | inProgress
  | ended
deriving DecidableEq

/-- Derivation of the spec's GamePhase from the orchestrator state. -/
def phaseOf {Pos : Type} (R : Rules Pos) (gs : GameState Pos) : GamePhase :=
  if !gs.gameStarted then GamePhase.setup
  else if R.isCheckmate gs.gamePosition || R.isDraw gs.gamePosition then GamePhase.ended
  else GamePhase.inProgress

/-- A concrete instance of the black-box rules engine on a four-position
board, used to evaluate the orchestrator at concrete inputs.  Position 2
is drawn yet still has a legal move, the situation real chess reaches at
king-versus-king (insufficient material is a draw while both kings can
still move); chess.js reports exactly that combination there. -/
def toyRules : Rules Nat :=
  { initial := 0,
    tryMove := fun p m =>
      if p == 0 && m.fromSq == "e2" then
        some (1, { san := "e4", fromSq := "e2", toSq := "e4" })
      else if p == 1 && m.fromSq == "e7" then
        some (2, { san := "e5", fromSq := "e7", toSq := "e5" })
      else if p == 2 && m.fromSq == "g1" then
        some (3, { san := "Nf3", fromSq := "g1", toSq := "f3" })
      else none,
    isCheckmate := fun _ => false,
    isDraw := fun p => p == 2,
    isCheck := fun _ => false,
    isGameOver := fun p => p == 2,
    turn := fun p => if p % 2 == 0 then Color.white else Color.black }

/-- Combined state of one ChessGame component with its useStockfish
session. -/
structure SysState (Pos : Type) where
  sess : EngineSession
  gs : GameState Pos
deriving DecidableEq

/-- An event of the combined system: user interface actions and session
events. -/
inductive SysEvent where
  | setName (n : String)
  | setGender (g : Gender)
  | setColor (c : Color)
  | startPressed
  | drop (src tgt piece : String)
  | resetPressed
  | sessEvent (e : SEvent)
deriving DecidableEq

/-- Deliver session callback invocations to the orchestrator:
requestBotMove registers makeBotMove as onMove and the thinking-flag
reset as onError, so a best invocation runs makeBotMove and a fail
invocation runs onBotMoveError.  The Math.random modulus choice is fixed
to 2 (it only selects an advisory trash-talk effect, dropped here). -/
def applyCallbacks {Pos : Type} (R : Rules Pos) (gs : GameState Pos)
    (cbs : List Callback) : GameState Pos :=
  cbs.foldl (fun g cb =>
    match cb with
    | Callback.best _ m => (makeBotMove R true m g).1
    | Callback.fail _ => onBotMoveError g) gs

/-- Interpret the engine-affecting effects of an orchestrator operation:
a scheduled requestBot runs requestBotMove, which sets the thinking flag
and calls requestMove with both callbacks supplied (lines 189-202);
if the hook is not ready the onError fires synchronously.  Presentation
effects change nothing here. -/
def runEffects {Pos : Type} (R : Rules Pos) (st : SysState Pos)
    (effs : List (Effect Pos)) : SysState Pos :=
  effs.foldl (fun acc e =>
    match e with
    | Effect.requestBot _ =>
        let gs1 := requestBotMoveIssue acc.gs
        let r := sessionStep acc.sess (SEvent.request true)
        { sess := r.1, gs := applyCallbacks R gs1 r.2 }
    | _ => acc) st

/-- One step of the combined system. -/
def sysStep {Pos : Type} (R : Rules Pos) (st : SysState Pos) :
    SysEvent → SysState Pos
  | SysEvent.setName n => { st with gs := { st.gs with playerName := n } }
  | SysEvent.setGender g => { st with gs := { st.gs with playerGender := g } }
  | SysEvent.setColor c => { st with gs := { st.gs with playerColor := c } }
  | SysEvent.startPressed =>
      let r := startGame R st.gs
      runEffects R { st with gs := r.1 } r.2
  | SysEvent.drop src tgt piece =>
      let r := onDrop R src tgt piece st.gs
      runEffects R { st with gs := r.state } r.effects
  | SysEvent.resetPressed => { st with gs := resetGame R st.gs }
  | SysEvent.sessEvent e =>
      let r := sessionStep st.sess e
      { sess := r.1, gs := applyCallbacks R st.gs r.2 }

/-- Run a list of system events. -/
def sysRun {Pos : Type} (R : Rules Pos) (st : SysState Pos) :
    List SysEvent → SysState Pos
  | [] => st
  | e :: es => sysRun R (sysStep R st e) es

/-- The combined system as mounted: fresh session, fresh component
state. -/
def sysInit : SysState Nat :=
  { sess := initialSession, gs := initialGameState toyRules }

/-- Component state right after a game was started (player registered as
"A", male, white by default). -/
def gsStarted : GameState Nat :=
  (startGame toyRules
    { initialGameState toyRules with playerName := "A", playerGender := Gender.male }).1

/-- gsStarted with the turn already handed to the bot. -/
def gsNotTurn : GameState Nat :=
  { gsStarted with isPlayerTurn := false }

/-- Combined state reached by: engine handshake, registration, start,
the human plays e2-e4 (a bot request is issued), the bot answers e7-e5
and the resulting position is drawn while still admitting a legal
move. -/
def c5Pre : SysState Nat :=
  sysRun toyRules sysInit
    [SysEvent.sessEvent (SEvent.workerMsg WorkerMsg.ready),
     SysEvent.setName "A", SysEvent.setGender Gender.male, SysEvent.startPressed,
     SysEvent.drop "e2" "e4" "wP",
     SysEvent.sessEvent (SEvent.workerMsg (WorkerMsg.bestmove 0 "e7e5"))]

/-- Combined state reached by: engine handshake, registration, start,
the human plays e2-e4 (a bot request is issued), the worker posts an
error (its unconditional backup timeout does exactly this; the error
handler fires onError but leaves pendingCallbackRef set), and the user
presses New Game.  The stale onMove callback of the dead request is
still registered while it is again the human's turn on a fresh board. -/
def c7Before : SysState Nat :=
  sysRun toyRules sysInit
    [SysEvent.sessEvent (SEvent.workerMsg WorkerMsg.ready),
     SysEvent.setName "A", SysEvent.setGender Gender.male, SysEvent.startPressed,
     SysEvent.drop "e2" "e4" "wP",
     SysEvent.sessEvent (SEvent.workerMsg (WorkerMsg.error 0)),
     SysEvent.resetPressed]

/-- c7Before after the engine's late bestmove (the reply the stop
directive forces out of the engine) arrives and is delivered to the
stale callback. -/
def c7After : SysState Nat :=
  sysStep toyRules c7Before (SysEvent.sessEvent (SEvent.workerMsg (WorkerMsg.bestmove 0 "e2e4")))

/-- A session on which requestMove was called without onError and which
was then terminated: no error callback, the move callback and its
deadline timer still registered, worker gone.  Reached by the event list
[ready, request without onError, terminate]. -/
def c10Session : EngineSession :=
  (sessionRun initialSession
    [SEvent.workerMsg WorkerMsg.ready, SEvent.request false, SEvent.terminate]).1

/-!
Theorems.  Each claim of the specification review is settled against the
model above; counterexamples are closed evaluations of the embedded code
at concrete inputs, amended statements are proved in general and then
witnessed at concrete inputs.
-/

/-- C1: the claim says that for every requestMove call on a ready
session exactly one of onMove / onError fires - never both - regardless
of the computation unit's behavior.  Evaluating the session at the
behavior the repository's own worker exhibits (a bestmove followed by
the unconditional 300 ms backup-timeout error for the same request)
fires BOTH callbacks of call 0: the bestmove branch clears
pendingCallbackRef but not errorCallbackRef, so the subsequent error
message still fires onError. -/
theorem c1_bestmove_then_error_fires_both :
    (sessionRun initialSession
      [SEvent.workerMsg WorkerMsg.ready,
       SEvent.request true,
       SEvent.workerMsg (WorkerMsg.bestmove 0 "e7e5"),
       SEvent.workerMsg (WorkerMsg.error 0)]).2
    = [Callback.best 0 "e7e5", Callback.fail 0] := by decide

/-- C2 counterexample: the claim says a requestMove issued while a
request is pending first cancels the pending one, clearing its timer,
before recording the new request.  After two back-to-back requestMove
calls the first deadline timer is still armed (two timers live), and
when that stale timer fires it invokes the NEW request's onFailure -
requestMove overwrites timeoutRef without clearTimeout. -/
theorem c2_stale_timer_not_cleared :
    ((sessionRun readySession [SEvent.request true, SEvent.request true]).1.armed.length = 2)
    ∧ (sessionRun readySession
        [SEvent.request true, SEvent.request true, SEvent.timerFire 0]).2
      = [Callback.fail 1] := by decide

/-- C2 amended: requestMove on a ready session overwrites the single
request slot with the new call's callbacks (so at most one request is
recorded at a time), returns without firing anything, and the worker
sends a stop directive to the engine before the new search; but the
pending request's deadline timer is NOT cleared - the armed-timer list
grows by the new handle while keeping the old ones. -/
theorem c2_requestMove_overwrites_slot (s : EngineSession) (hasErr : Bool) (fen : String)
    (hready : s.ready = true) :
    (requestMove s hasErr).1.pending = some s.nextCall
    ∧ (requestMove s hasErr).1.errCb = (if hasErr then some s.nextCall else none)
    ∧ (requestMove s hasErr).1.armed = s.nextTimer :: s.armed
    ∧ (requestMove s hasErr).2 = []
    ∧ (workerOnPosition true fen).directives.head? = some EngineDirective.stop := by
  simp [requestMove, hready, workerOnPosition]

/-- C2 witness: the amended statement evaluated on the freshly
handshaken session. -/
theorem c2_witness :
    readySession.ready = true
    ∧ ((requestMove readySession true).1.pending = some 0
        ∧ (requestMove readySession true).1.errCb = (if true then some 0 else none)
        ∧ (requestMove readySession true).1.armed = 0 :: readySession.armed
        ∧ (requestMove readySession true).2 = []
        ∧ (workerOnPosition true "fen").directives.head? = some EngineDirective.stop) :=
  ⟨rfl, c2_requestMove_overwrites_slot readySession true "fen" rfl⟩

/-- C3 counterexample: the claim says a bestMove arriving after its
request was superseded is discarded and never invokes a callback.  After
call 0 is superseded by call 1, the unit's late answer to call 0 (ghost
origin 0; the real messages carry no correlation id) is delivered to
call 1's onMove - far from being discarded, the stale move is handed to
the new request's callback. -/
theorem c3_late_result_delivered_to_new_request :
    (sessionRun readySession
      [SEvent.request true, SEvent.request true,
       SEvent.workerMsg (WorkerMsg.bestmove 0 "d1h5")]).2
    = [Callback.best 1 "d1h5"] := by decide

/-- C3 amended: a bestMove arriving while no request is recorded is
discarded without invoking anything; if no result arrives the deadline
timer fires onFailure exactly once and clears the slot, after which a
late bestMove with no new request in between is discarded; but a
bestMove arriving after the request was superseded by a second
requestMove is delivered to the new request's onMove. -/
theorem c3_timeout_discard_supersede (s : EngineSession) (o o2 : Nat) (m m2 : String)
    (hready : s.ready = true) :
    (s.pending = none → (sessionStep s (SEvent.workerMsg (WorkerMsg.bestmove o m))).2 = [])
    ∧ (sessionStep (requestMove s true).1 (SEvent.timerFire s.nextTimer)).2
        = [Callback.fail s.nextCall]
    ∧ (sessionStep (sessionStep (requestMove s true).1 (SEvent.timerFire s.nextTimer)).1
        (SEvent.workerMsg (WorkerMsg.bestmove o m))).2 = []
    ∧ (sessionStep (requestMove (requestMove s true).1 true).1
        (SEvent.workerMsg (WorkerMsg.bestmove o2 m2))).2
        = [Callback.best (s.nextCall + 1) m2] := by
  refine ⟨?_, ?_, ?_, ?_⟩
  · intro h
    simp [sessionStep, onWorkerMessage, clearSessionTimeout, h]
    cases hT : s.timeoutRef <;> simp [hT, h]
  · simp [sessionStep, requestMove, hready, sessionTimeoutHandler]
  · simp [sessionStep, requestMove, hready, sessionTimeoutHandler, onWorkerMessage,
      clearSessionTimeout]
  · simp [sessionStep, requestMove, hready, onWorkerMessage, clearSessionTimeout]

/-- C3 witness: the amended statement evaluated on the freshly
handshaken session (whose slot is empty and whose first timer handle and
call number are 0). -/
theorem c3_witness :
    readySession.ready = true
    ∧ readySession.pending = none
    ∧ (sessionStep readySession (SEvent.workerMsg (WorkerMsg.bestmove 7 "a"))).2 = []
    ∧ (sessionStep (requestMove readySession true).1 (SEvent.timerFire 0)).2
        = [Callback.fail 0]
    ∧ (sessionStep (sessionStep (requestMove readySession true).1 (SEvent.timerFire 0)).1
        (SEvent.workerMsg (WorkerMsg.bestmove 7 "a"))).2 = []
    ∧ (sessionStep (requestMove (requestMove readySession true).1 true).1
        (SEvent.workerMsg (WorkerMsg.bestmove 8 "b"))).2
        = [Callback.best 1 "b"] := by
  have h := c3_timeout_discard_supersede readySession 7 8 "a" "b" rfl
  exact ⟨rfl, rfl, h.1 rfl, h.2.1, h.2.2.1, h.2.2.2⟩

/-- C4 counterexample: the claim says an illegal engine move tears the
session down and rebuilds it and surfaces a signal more severe than an
ordinary engine failure.  Evaluating makeBotMove on an illegal move at a
started game: the resulting state equals exactly the ordinary
engine-failure outcome (onBotMoveError) and the emitted effect list is
empty - no terminate, no rebuild, no distinct signal, only a console
log. -/
theorem c4_illegal_move_is_silent :
    makeBotMove toyRules true "a1a1" gsStarted = ({ gsStarted with botThinking := false }, [])
    ∧ (makeBotMove toyRules true "a1a1" gsStarted).1 = onBotMoveError gsStarted
    ∧ (makeBotMove toyRules true "a1a1" gsStarted).2 = [] := by decide

/-- C4 amended: when the rules engine rejects the engine's move,
makeBotMove leaves the position, history and turn unchanged, clears the
thinking flag, emits no effect (in particular no session teardown), and
its outcome is identical to the ordinary engine-failure handler's. -/
theorem c4_illegal_move_no_teardown {Pos : Type} (R : Rules Pos) (coin : Bool)
    (mv : String) (gs : GameState Pos)
    (hIll : R.tryMove gs.gamePosition (parseBotMove mv) = none) :
    makeBotMove R coin mv gs = ({ gs with botThinking := false }, [])
    ∧ (makeBotMove R coin mv gs).1 = onBotMoveError gs := by
  simp [makeBotMove, hIll, onBotMoveError]

/-- C4 witness: the amended statement evaluated at a started game and an
illegal move string with a promotion suffix. -/
theorem c4_witness :
    toyRules.tryMove gsStarted.gamePosition (parseBotMove "h7h8q") = none
    ∧ (makeBotMove toyRules false "h7h8q" gsStarted
        = ({ gsStarted with botThinking := false }, [])
      ∧ (makeBotMove toyRules false "h7h8q" gsStarted).1 = onBotMoveError gsStarted) :=
  ⟨by decide, c4_illegal_move_no_teardown toyRules false "h7h8q" gsStarted (by decide)⟩

/-- C5 counterexample: the claim says onDrop rejects with no state
change whenever the game phase is not InProgress.  In the reachable
state c5Pre the game has ended (the position is drawn, status "Draw!"),
yet a legal in-turn drop is applied and the position changes: onDrop
never consults the phase. -/
theorem c5_move_applied_after_game_ended :
    phaseOf toyRules c5Pre.gs = GamePhase.ended
    ∧ c5Pre.gs.gameStatus = "Draw!"
    ∧ (onDrop toyRules "g1" "f3" "wN" c5Pre.gs).accepted = true
    ∧ (onDrop toyRules "g1" "f3" "wN" c5Pre.gs).state.gamePosition ≠ c5Pre.gs.gamePosition := by
  decide

/-- C5 amended: onDrop rejects with no state change when it is not the
player's turn or the bot is thinking, and when the rules engine rejects
the move; an accepted drop happened on the player's turn with the bot
idle and set the position to the rules engine's result.  The game phase
is not among the guards, so a legal in-turn move is applied even after
the game has ended. -/
theorem c5_onDrop_guards {Pos : Type} (R : Rules Pos) (src tgt piece : String)
    (gs : GameState Pos) :
    ((gs.isPlayerTurn = false ∨ gs.botThinking = true) →
        onDrop R src tgt piece gs = { state := gs, accepted := false, effects := [] })
    ∧ (R.tryMove gs.gamePosition
          { fromSq := src, toSq := tgt, promotion := promotionForPiece piece } = none →
        onDrop R src tgt piece gs = { state := gs, accepted := false, effects := [] })
    ∧ ((onDrop R src tgt piece gs).accepted = true →
        gs.isPlayerTurn = true ∧ gs.botThinking = false ∧
        ∃ q mvr, R.tryMove gs.gamePosition
            { fromSq := src, toSq := tgt, promotion := promotionForPiece piece }
            = some (q, mvr)
          ∧ (onDrop R src tgt piece gs).state.gamePosition = q)
    ∧ ((onDrop R src tgt piece gs).accepted = false →
        (onDrop R src tgt piece gs).state = gs) := by
  refine ⟨?_, ?_, ?_, ?_⟩
  · rintro (h | h) <;> simp [onDrop, h]
  · intro h
    by_cases hpt : gs.isPlayerTurn
    · by_cases hbt : gs.botThinking
      · simp [onDrop, hpt, hbt]
      · simp [onDrop, hpt, hbt, h]
    · simp [Bool.not_eq_true] at hpt
      simp [onDrop, hpt]
  · intro h
    by_cases hpt : gs.isPlayerTurn
    · by_cases hbt : gs.botThinking
      · simp [onDrop, hpt, hbt] at h
      · cases hT : R.tryMove gs.gamePosition
            { fromSq := src, toSq := tgt, promotion := promotionForPiece piece } with
        | none => simp [onDrop, hpt, hbt, hT] at h
        | some pr =>
            obtain ⟨q, mvr⟩ := pr
            refine ⟨hpt, by simpa using hbt, q, mvr, rfl, ?_⟩
            simp [onDrop, hpt, hbt, hT]
    · simp [Bool.not_eq_true] at hpt
      simp [onDrop, hpt] at h
  · intro h
    by_cases hpt : gs.isPlayerTurn
    · by_cases hbt : gs.botThinking
      · simp [onDrop, hpt, hbt]
      · cases hT : R.tryMove gs.gamePosition
            { fromSq := src, toSq := tgt, promotion := promotionForPiece piece } with
        | none => simp [onDrop, hpt, hbt, hT]
        | some pr => simp [onDrop, hpt, hbt, hT] at h
    · simp [Bool.not_eq_true] at hpt
      simp [onDrop, hpt]

/-- C5 witness: the amended statement applied at concrete inputs - a
drop attempted while it is the bot's turn is rejected unchanged, and the
accepted opening drop is characterized by the rules engine's result. -/
theorem c5_witness :
    gsNotTurn.isPlayerTurn = false
    ∧ onDrop toyRules "e2" "e4" "wP" gsNotTurn
        = { state := gsNotTurn, accepted := false, effects := [] }
    ∧ (onDrop toyRules "e2" "e4" "wP" gsStarted).accepted = true
    ∧ (gsStarted.isPlayerTurn = true ∧ gsStarted.botThinking = false ∧
        ∃ q mvr, toyRules.tryMove gsStarted.gamePosition
            { fromSq := "e2", toSq := "e4", promotion := promotionForPiece "wP" }
            = some (q, mvr)
          ∧ (onDrop toyRules "e2" "e4" "wP" gsStarted).state.gamePosition = q) :=
  ⟨rfl,
   (c5_onDrop_guards toyRules "e2" "e4" "wP" gsNotTurn).1 (Or.inl rfl),
   by decide,
   (c5_onDrop_guards toyRules "e2" "e4" "wP" gsStarted).2.2.1 (by decide)⟩

/-- C6: when the engine request fails (timeout or unit error), the
onError callback registered by requestBotMove only clears the thinking
flag: composed with the request-issue update it returns to the original
state except for botThinking, so the position, the turn owner, the
history and the status are all unchanged and a retry would re-issue the
request for the same position. -/
theorem c6_engine_failure_frame {Pos : Type} (gs : GameState Pos) :
    onBotMoveError (requestBotMoveIssue gs) = { gs with botThinking := false }
    ∧ (onBotMoveError gs).gamePosition = gs.gamePosition
    ∧ (onBotMoveError gs).isPlayerTurn = gs.isPlayerTurn
    ∧ (onBotMoveError gs).moveHistory = gs.moveHistory
    ∧ (onBotMoveError gs).gameStatus = gs.gameStatus
    ∧ (requestBotMoveIssue (onBotMoveError gs)).gamePosition = gs.gamePosition := by
  refine ⟨rfl, rfl, rfl, rfl, rfl, rfl⟩

/-- C6 witness: the frame property evaluated at the started game with
the turn handed to the bot. -/
theorem c6_witness :
    onBotMoveError (requestBotMoveIssue gsNotTurn) = { gsNotTurn with botThinking := false }
    ∧ (onBotMoveError gsNotTurn).gamePosition = gsNotTurn.gamePosition
    ∧ (onBotMoveError gsNotTurn).isPlayerTurn = gsNotTurn.isPlayerTurn
    ∧ (onBotMoveError gsNotTurn).moveHistory = gsNotTurn.moveHistory
    ∧ (onBotMoveError gsNotTurn).gameStatus = gsNotTurn.gameStatus
    ∧ (requestBotMoveIssue (onBotMoveError gsNotTurn)).gamePosition = gsNotTurn.gamePosition :=
  c6_engine_failure_frame gsNotTurn

/-- C7 counterexample: the claim says the turn owner strictly alternates
after every applied move.  In the reachable combined trace c7Before (a
request whose worker error fired onError but left the stale onMove
registered, followed by New Game) the engine's late bestmove is applied
on the fresh board: an engine move is applied (the position changes and
the history grows) while the turn owner stays Human before and after -
no alternation. -/
theorem c7_stale_engine_move_keeps_turn :
    c7Before.gs.isPlayerTurn = true
    ∧ c7After.gs.isPlayerTurn = true
    ∧ c7After.gs.gamePosition ≠ c7Before.gs.gamePosition
    ∧ c7After.gs.moveHistory.length = c7Before.gs.moveHistory.length + 1 := by decide

/-- C7 amended: an accepted human move happens on the human's turn and
hands the turn to the engine; an applied engine move sets the turn to
the human (without checking whose turn it was, which is what the stale
delivery above exploits); a rejected move of either kind and the
engine-failure handler leave the turn owner unchanged. -/
theorem c7_turn_transitions {Pos : Type} (R : Rules Pos) (coin : Bool)
    (src tgt piece mv : String) (gs : GameState Pos) :
    ((onDrop R src tgt piece gs).accepted = true →
        gs.isPlayerTurn = true ∧ (onDrop R src tgt piece gs).state.isPlayerTurn = false)
    ∧ ((onDrop R src tgt piece gs).accepted = false →
        (onDrop R src tgt piece gs).state.isPlayerTurn = gs.isPlayerTurn)
    ∧ ((R.tryMove gs.gamePosition (parseBotMove mv)).isSome = true →
        (makeBotMove R coin mv gs).1.isPlayerTurn = true)
    ∧ ((R.tryMove gs.gamePosition (parseBotMove mv)).isNone = true →
        (makeBotMove R coin mv gs).1.isPlayerTurn = gs.isPlayerTurn)
    ∧ (onBotMoveError gs).isPlayerTurn = gs.isPlayerTurn := by
  refine ⟨?_, ?_, ?_, ?_, rfl⟩
  · intro h
    by_cases hpt : gs.isPlayerTurn
    · by_cases hbt : gs.botThinking
      · simp [onDrop, hpt, hbt] at h
      · cases hT : R.tryMove gs.gamePosition
            { fromSq := src, toSq := tgt, promotion := promotionForPiece piece } with
        | none => simp [onDrop, hpt, hbt, hT] at h
        | some pr => exact ⟨hpt, by simp [onDrop, hpt, hbt, hT]⟩
    · simp [Bool.not_eq_true] at hpt
      simp [onDrop, hpt] at h
  · intro h
    by_cases hpt : gs.isPlayerTurn
    · by_cases hbt : gs.botThinking
      · simp [onDrop, hpt, hbt]
      · cases hT : R.tryMove gs.gamePosition
            { fromSq := src, toSq := tgt, promotion := promotionForPiece piece } with
        | none => simp [onDrop, hpt, hbt, hT]
        | some pr => simp [onDrop, hpt, hbt, hT] at h
    · simp [Bool.not_eq_true] at hpt
      simp [onDrop, hpt]
  · intro h
    rw [Option.isSome_iff_exists] at h
    obtain ⟨pr, hT⟩ := h
    obtain ⟨q, mvr⟩ := pr
    simp [makeBotMove, hT]
  · intro h
    rw [Option.isNone_iff_eq_none] at h
    simp [makeBotMove, h]

/-- C7 witness: the amended transitions evaluated at the started game -
the accepted opening drop flips the turn to the bot, the legal engine
reply hands it back, an illegal engine move leaves it alone. -/
theorem c7_witness :
    ((onDrop toyRules "e2" "e4" "wP" gsStarted).accepted = true)
    ∧ (gsStarted.isPlayerTurn = true
        ∧ (onDrop toyRules "e2" "e4" "wP" gsStarted).state.isPlayerTurn = false)
    ∧ ((toyRules.tryMove gsStarted.gamePosition (parseBotMove "e2e4")).isSome = true)
    ∧ (makeBotMove toyRules true "e2e4" gsStarted).1.isPlayerTurn = true
    ∧ ((toyRules.tryMove gsNotTurn.gamePosition (parseBotMove "a1a1")).isNone = true)
    ∧ (makeBotMove toyRules true "a1a1" gsNotTurn).1.isPlayerTurn = gsNotTurn.isPlayerTurn
    ∧ (onBotMoveError gsNotTurn).isPlayerTurn = gsNotTurn.isPlayerTurn :=
  ⟨by decide,
   (c7_turn_transitions toyRules true "e2" "e4" "wP" "e2e4" gsStarted).1 (by decide),
   by decide,
   (c7_turn_transitions toyRules true "e2" "e4" "wP" "e2e4" gsStarted).2.2.1 (by decide),
   by decide,
   (c7_turn_transitions toyRules true "e2" "e4" "wP" "a1a1" gsNotTurn).2.2.2.1 (by decide),
   (c7_turn_transitions toyRules true "e2" "e4" "wP" "a1a1" gsNotTurn).2.2.2.2⟩

/-- C8 counterexample: the claim says reset from any reachable state
equals a freshly constructed state in every field.  From the reachable
state in which the user toggled sound off, resetGame keeps soundEnabled
false while the initial state has it true, so the reset state differs
from the fresh one. -/
theorem c8_reset_keeps_sound_setting :
    resetGame toyRules (toggleSound (initialGameState toyRules)) ≠ initialGameState toyRules
    ∧ (resetGame toyRules (toggleSound (initialGameState toyRules))).soundEnabled = false
    ∧ (initialGameState toyRules).soundEnabled = true := by decide

/-- C8 amended: resetGame restores every game and registration field to
its initial-construction value but preserves the three user-preference
fields isFullscreen, soundEnabled and speechEnabled; it yields exactly
the freshly constructed state when those three already hold their
initial values. -/
theorem c8_reset_preserves_ui_prefs {Pos : Type} (R : Rules Pos) (gs : GameState Pos) :
    resetGame R gs
      = { initialGameState R with
          isFullscreen := gs.isFullscreen,
          soundEnabled := gs.soundEnabled,
          speechEnabled := gs.speechEnabled }
    ∧ (gs.isFullscreen = false → gs.soundEnabled = true → gs.speechEnabled = true →
        resetGame R gs = initialGameState R) := by
  constructor
  · rfl
  · intro h1 h2 h3
    simp [resetGame, initialGameState, h1, h2, h3]

/-- C8 witness: the amended statement evaluated at the drawn mid-game
state c5Pre (whose preferences still hold their initial values), where
reset does reproduce the fresh state. -/
theorem c8_witness :
    c5Pre.gs.isFullscreen = false
    ∧ c5Pre.gs.soundEnabled = true
    ∧ c5Pre.gs.speechEnabled = true
    ∧ resetGame toyRules c5Pre.gs = initialGameState toyRules :=
  ⟨rfl, rfl, rfl, (c8_reset_preserves_ui_prefs toyRules c5Pre.gs).2 rfl rfl rfl⟩

/-- C9 counterexample: the claim says every session variant's request
deadline strictly exceeds its worker's internal backup timeout.  The
fast variant arms a 200 ms deadline against a 300 ms worker backup, so
the session timer fires first and a race, not a genuine failure,
triggers onFailure. -/
theorem c9_fast_variant_deadline_below_backup :
    ¬ (sessionRequestTimeoutMs HookVariant.fastMove
        > workerBackupTimeoutMs HookVariant.fastMove) := by decide

/-- C9 amended: only the active hook satisfies the safety margin
(500 ms deadline over a 300 ms worker backup); the depth-search variant
(5000 ms over 10000 ms) and the fast variant (200 ms over 300 ms) both
have deadlines below their unit's worst-case response time. -/
theorem c9_only_active_variant_has_margin :
    (sessionRequestTimeoutMs HookVariant.active
        > workerBackupTimeoutMs HookVariant.active)
    ∧ ¬ (sessionRequestTimeoutMs HookVariant.depthSearch
        > workerBackupTimeoutMs HookVariant.depthSearch)
    ∧ ¬ (sessionRequestTimeoutMs HookVariant.fastMove
        > workerBackupTimeoutMs HookVariant.fastMove) := by decide

/-- C10 counterexample: the claim says that with onError omitted every
failure path is silent AND onMove never fires for that call.  After an
engine-reported error (a failure path that fires nothing, onError being
absent) the pending onMove is still registered, and a subsequent
bestmove fires it: onMove does fire for that call after its failure. -/
theorem c10_onMove_fires_after_error :
    (sessionRun initialSession
      [SEvent.workerMsg WorkerMsg.ready, SEvent.request false,
       SEvent.workerMsg (WorkerMsg.error 0),
       SEvent.workerMsg (WorkerMsg.bestmove 0 "g8f6")]).2
    = [Callback.best 0 "g8f6"] := by decide

/-- C10 amended: with no error callback registered, the
engine-reported-error, worker-error and deadline-timeout paths invoke no
callback, and a not-ready requestMove without onError invokes nothing
and records nothing; the timeout path clears the pending onMove, but the
engine-reported-error path leaves it registered, which is why a later
bestmove can still fire onMove. -/
theorem c10_omitted_onError_paths (s : EngineSession) (o h : Nat)
    (hno : s.errCb = none) (hmem : h ∈ s.armed) (hnr : s.ready = false) :
    (sessionStep s (SEvent.workerMsg (WorkerMsg.error o))).2 = []
    ∧ (sessionStep s SEvent.workerFailure).2 = []
    ∧ (sessionStep s (SEvent.timerFire h)).2 = []
    ∧ (sessionStep s (SEvent.timerFire h)).1.pending = none
    ∧ (sessionStep s (SEvent.request false)).2 = []
    ∧ (sessionStep s (SEvent.request false)).1.pending = s.pending
    ∧ (sessionStep s (SEvent.workerMsg (WorkerMsg.error o))).1.pending = s.pending := by
  refine ⟨?_, ?_, ?_, ?_, ?_, ?_, ?_⟩
  · simp [sessionStep, onWorkerMessage, clearSessionTimeout]
    cases hT : s.timeoutRef <;> simp [hT, hno]
  · simp [sessionStep, onWorkerError, hno]
  · simp [sessionStep, hmem, sessionTimeoutHandler, hno]
  · simp [sessionStep, hmem, sessionTimeoutHandler, hno]
  · simp [sessionStep, requestMove, hnr]
  · simp [sessionStep, requestMove, hnr]
  · simp [sessionStep, onWorkerMessage, clearSessionTimeout]
    cases hT : s.timeoutRef <;> simp [hT, hno]

/-- C10 witness: the amended statement evaluated on c10Session, the
session holding a request issued without onError. -/
theorem c10_witness :
    c10Session.errCb = none
    ∧ (0 ∈ c10Session.armed)
    ∧ c10Session.ready = false
    ∧ ((sessionStep c10Session (SEvent.workerMsg (WorkerMsg.error 3))).2 = []
        ∧ (sessionStep c10Session SEvent.workerFailure).2 = []
        ∧ (sessionStep c10Session (SEvent.timerFire 0)).2 = []
        ∧ (sessionStep c10Session (SEvent.timerFire 0)).1.pending = none
        ∧ (sessionStep c10Session (SEvent.request false)).2 = []
        ∧ (sessionStep c10Session (SEvent.request false)).1.pending = c10Session.pending
        ∧ (sessionStep c10Session (SEvent.workerMsg (WorkerMsg.error 3))).1.pending
            = c10Session.pending) :=
  ⟨rfl, by decide, rfl, c10_omitted_onError_paths c10Session 3 0 rfl (by decide) rfl⟩
